import Mathlib

/-!
Verification of the vending-machine Upper Computer (UC) against its
natural-language specification.  Shallow embedding of the Python sources:
`src/services/vending.py`, `src/services/esocket.py`, `src/services/broker.py`
and `src/utils/inventory.py`.  Bytes are modelled as `Nat` (values < 256 on
the wire), TinyDB documents as records of optional fields, and the stateful
`VendingMachine` object as explicit state passing.
-/

namespace Vmc

/-- XOR checksum over a byte sequence (`VendingMachine._calculate_xor`). -/
def calculateXor (data : List Nat) : Nat :=
  data.foldl (fun acc b => acc ^^^ b) 0

/-- `bytes.find(self.STX)` on the receive buffer: index of the first
occurrence of the two-byte subsequence `FA FB`, or `none`. -/
def findStx : List Nat → Option Nat
  | a :: b :: rest =>
    if a = 0xFA ∧ b = 0xFB then some 0
    else (findStx (b :: rest)).map (· + 1)
  | _ => none

/-- `VendingMachine.create_packet` with the sequence counter passed
explicitly: `STX(2) ‖ cmd ‖ len ‖ seq ‖ data ‖ xor` where `len = |data|+1`.
The source's two branches (`if data:` / `else`) build the same bytes, since
the `else` branch's length byte `1` equals `|data|+1` for empty `data`. -/
def createPacket (command seq : Nat) (data : List Nat) : List Nat :=
  let body :=
    if data.isEmpty then [0xFA, 0xFB, command, 1, seq]
    else [0xFA, 0xFB, command, data.length + 1, seq] ++ data
  body ++ [calculateXor body]

/-- `VendingMachine._extract_packet`: returns `(packet?, remaining)`.
On a checksum mismatch it returns `(none, data[2:])` ("Skip bad STX and
resync"), on an incomplete candidate `(none, data-from-STX)`. -/
def extractPacket (buf : List Nat) : Option (List Nat) × List Nat :=
  match findStx buf with
  | none => (none, buf)
  | some stxPos =>
    let data := buf.drop stxPos
    if data.length < 5 then (none, data)
    else
      let length := data.getD 3 0
      let packetEnd := 4 + length + 1
      if data.length < packetEnd then (none, data)
      else
        let packet := data.take packetEnd
        let remaining := data.drop packetEnd
        if calculateXor packet.dropLast ≠ packet.getLastD 0 then
          (none, data.drop 2)
        else (some packet, remaining)

/-- `VendingMachine._process_incoming_data`: repeatedly extract packets from
the buffer; when `_extract_packet` yields no packet the loop `break`s
*without* storing the returned remainder, so the buffer is only advanced
past a successfully handled packet.  Returns the handled packets in order
and the final `recv_buffer`.  `fuel` bounds the loop (each delivered packet
consumes ≥ 5 buffer bytes, so `buf.length` steps always suffice). -/
def processIncomingDataAux (fuel : Nat) (buf : List Nat) :
    List (List Nat) × List Nat :=
  match fuel with
  | 0 => ([], buf)
  | fuel + 1 =>
    if buf.length < 5 then ([], buf)
    else
      match extractPacket buf with
      | (none, _) => ([], buf)
      | (some p, remaining) =>
        let rest := processIncomingDataAux fuel remaining
        (p :: rest.1, rest.2)

/-- `_process_incoming_data` on a buffer. -/
def processIncomingData (buf : List Nat) : List (List Nat) × List Nat :=
  processIncomingDataAux buf.length buf

/-- `packet[2]` as read by `_handle_packet`. -/
def packetCmd (packet : List Nat) : Nat := packet.getD 2 0

/-- `payload = packet[4:-1]` as read by `_handle_packet`. -/
def packetPayload (packet : List Nat) : List Nat := (packet.drop 4).dropLast

/-- The sequence byte `payload[0]` recovered by `_handle_packet`. -/
def packetSeq (packet : List Nat) : Nat := (packetPayload packet).getD 0 0

/-- The data bytes `payload[1:]` recovered by the packet handlers. -/
def packetData (packet : List Nat) : List Nat := (packetPayload packet).drop 1

/-! ## Byte helpers -/

/-- `int.from_bytes(bs, "big")`. -/
def bytesToNat (bs : List Nat) : Nat :=
  bs.foldl (fun acc b => acc * 256 + b) 0

/-- Big-endian byte list of `v` over `nbytes` bytes
(`v.to_bytes(nbytes, "big")` for in-range `v`). -/
def bigEndianBytes (v : Nat) (nbytes : Nat) : List Nat :=
  (List.range nbytes).map (fun i => v / 256 ^ (nbytes - 1 - i) % 256)

/-- Python `value.to_bytes(nbytes, "big")` (unsigned): raises
`OverflowError` for a negative value or one that does not fit. -/
def intToBytes (value : Int) (nbytes : Nat) : Except String (List Nat) :=
  if value < 0 then Except.error "OverflowError"
  else if (2 : Int) ^ (8 * nbytes) ≤ value then Except.error "OverflowError"
  else Except.ok (bigEndianBytes value.toNat nbytes)

/-- Python `needle in hay` on strings, as used for
`'ActionCode="APPROVE"' in raw_response`. -/
def substringIn (needle : List Char) : List Char → Bool
  | [] => needle.isEmpty
  | c :: rest => needle.isPrefixOf (c :: rest) || substringIn needle rest

/-- The marker the code searches for in gateway responses. -/
def approveCode : List Char := "ActionCode=\"APPROVE\"".data

/-! ## Data model: catalogue (TinyDB `Prices` table), queue, outputs -/

/-- A TinyDB document of the `Prices` table keyed by `selection`.  Each
field is optional: documents written by different code paths carry
different key sets. -/
structure CatEntry where
  selection : Option Int
  tray : Option Int
  price : Option Int
  inventory : Option Int
  capacity : Option Int
deriving DecidableEq, Repr

def CatEntry.empty : CatEntry := ⟨none, none, none, none, none⟩

/-- The `Prices` table: selection number → document. -/
def Catalogue : Type := Int → Option CatEntry

/-- Merge for `Prices.upsert`: keys present in the update override. -/
def pickField (upd old : Option Int) : Option Int :=
  match upd with
  | some v => some v
  | none => old

def mergeEntry (old upd : CatEntry) : CatEntry :=
  ⟨pickField upd.selection old.selection, pickField upd.tray old.tray,
    pickField upd.price old.price, pickField upd.inventory old.inventory,
    pickField upd.capacity old.capacity⟩

/-- `Prices.upsert(upd, query.selection == sel)`. -/
def upsertEntry (cat : Catalogue) (sel : Int) (upd : CatEntry) : Catalogue :=
  fun k =>
    if k = sel then
      some (match cat sel with
        | some old => mergeEntry old upd
        | none => upd)
    else cat k

/-- `Prices.update(fields, query.selection == sel)`: modifies the matching
document when it exists, no-op otherwise. -/
def updateEntry (cat : Catalogue) (sel : Int) (f : CatEntry → CatEntry) :
    Catalogue :=
  fun k => if k = sel then (cat k).map f else cat k

/-- An entry of `command_queue`: Python stores either a bare command code
or a `(code, data)` tuple. -/
inductive QEntry where
  | bare (cmd : Nat)
  | withData (cmd : Nat) (data : List Nat)
deriving DecidableEq, Repr

/-- The reversal dict built by `_handle_dispensing_status`.  `reasonStatus`
stands for the status byte interpolated into
`f"Product jam error {status_code:02X}"`. -/
structure ReversalMessage where
  terminalId : Option String
  transactionId : Nat
  txnType : String
  originalTransactionId : Option Nat
  reasonStatus : Nat
deriving DecidableEq, Repr

/-- A request sent to the eSocket.POS payment gateway. -/
inductive GatewayRequest where
  | purchase (transactionId : Nat) (amount : Int)
  | reversal (msg : ReversalMessage)
deriving DecidableEq, Repr

/-- Observable effects of the coordinator: bytes written to the serial
port, or a request sent to the payment gateway. -/
inductive Output where
  | serial (packet : List Nat)
  | gateway (req : GatewayRequest)
deriving DecidableEq, Repr

def Output.isGateway : Output → Bool
  | .gateway _ => true
  | .serial _ => false

/-- State of the `VendingMachine` object (`vending.py`).  `writer` being
live is folded into `serialConnected`; `hasTransactionTask` models
`_current_transaction_task` being set and not done; `esocketTerminalId`
is `esocket_client.terminal_id`. -/
structure MachineState where
  packetNumber : Nat
  currentSelection : Option Nat
  commandQueue : List QEntry
  lastCancelPacket : Option Nat
  currentTransactionId : Option Nat
  hasTransactionTask : Bool
  serialConnected : Bool
  esocketConnected : Bool
  esocketTerminalId : Option String
  catalogue : Catalogue

/-- `utils/commands.py` `VMC_COMMANDS` (name → code). -/
def vmcCommands : List (String × Nat) :=
  [("POLL", 0x41), ("ACK", 0x42), ("MONEY_NOTICE", 0x21),
   ("CURRENT_AMOUNT", 0x23), ("DISPLAY_REQUEST", 0x24),
   ("CHANGE_REQUEST", 0x25), ("CHANGE_RESPONSE", 0x26),
   ("MONEY_RECEIVED", 0x27), ("SET_ACCEPTANCE", 0x28),
   ("SELECTION_INFO", 0x11), ("SET_PRICE", 0x12), ("SET_INVENTORY", 0x13),
   ("SET_CAPACITY", 0x14), ("SET_PRODUCT_ID", 0x15), ("FULLY_LOADING", 0x17),
   ("CHECK_SELECTION", 0x01), ("SELECTION_STATUS", 0x02),
   ("SELECT_TO_BUY", 0x03), ("DISPENSING_STATUS", 0x04),
   ("SELECT_CANCEL", 0x05), ("DIRECT_DRIVE", 0x06),
   ("MACHINE_STATUS_REQ", 0x53), ("MACHINE_STATUS_RESP", 0x54),
   ("CHECK_IC_BALANCE", 0x61), ("IC_BALANCE_RESP", 0x62),
   ("CALL_MENU", 0x63), ("SET_QUERY_INTERVAL", 0x16), ("SYNC_INFO", 0x31),
   ("MACHINE_STATUS", 0x51), ("MACHINE_STATUS_DETAIL", 0x52),
   ("CARD_DEDUCTION", 0x64), ("MICROWAVE_INFO", 0x66),
   ("MENU_COMMAND", 0x70), ("MENU_RESPONSE", 0x71)]

def vmcCode (name : String) : Option Nat := vmcCommands.lookup name

/-- `VMC_COMMANDS["ACK"]["code"]`. -/
def ackCode : Nat := 0x42

/-- `VendingMachine._send_command`: builds a packet with `create_packet`
(which consumes and advances `packet_number`) and writes it; does nothing
when the serial link is down. -/
def sendCommand (st : MachineState) (command : Nat) (data : Option (List Nat)) :
    MachineState × List Output :=
  if st.serialConnected then
    let packet := createPacket command st.packetNumber (data.getD [])
    ({ st with packetNumber := st.packetNumber % 255 + 1 },
      [Output.serial packet])
  else (st, [])

/-- `VendingMachine.queue_command`: appends to `command_queue` after a
connection check and a name lookup in `VMC_COMMANDS`; returns the success
flag.  (Python's `if data:` stores a bare code for `None`/empty data.) -/
def queueCommand (st : MachineState) (name : String)
    (data : Option (List Nat)) : MachineState × Bool :=
  if st.serialConnected then
    match vmcCode name with
    | some code =>
      match data with
      | some d =>
        ({ st with commandQueue := st.commandQueue ++ [QEntry.withData code d] },
          true)
      | none =>
        ({ st with commandQueue := st.commandQueue ++ [QEntry.bare code] }, true)
    | none => (st, false)
  else (st, false)

/-- `VendingMachine.reset_machine_state`: clears the transaction fields,
replaces `command_queue` with a fresh empty queue (draining the old one),
and sends a final ACK when the link is up. -/
def resetMachineState (st : MachineState) : MachineState × List Output :=
  let st := { st with
    currentTransactionId := none
    currentSelection := none
    commandQueue := [] }
  if st.serialConnected then sendCommand st ackCode none else (st, [])

/-- `VendingMachine.cancel_selection`: queues a `SELECT_CANCEL` with
selection `0`, then resets the machine state (which installs a fresh empty
queue). -/
def cancelSelection (st : MachineState) : MachineState × List Output :=
  let queued := queueCommand st "SELECT_CANCEL" (some [0x00, 0x00])
  resetMachineState queued.1

/-- `VendingMachine._handle_poll`: dequeue one pending command and send it,
or send an ACK when the queue is empty.  The source's
"Prioritize dispensing commands" branch performs the same send as the
general branch, so it is mirrored as an `if` with identical arms. -/
def handlePoll (st : MachineState) : MachineState × List Output :=
  match st.commandQueue with
  | [] => sendCommand st ackCode none
  | entry :: rest =>
    let st := { st with commandQueue := rest }
    match entry with
    | QEntry.withData code d =>
      if code = 0x06 then sendCommand st code (some d)
      else sendCommand st code (some d)
    | QEntry.bare code => sendCommand st code none

/-- Result of `ESocketClient._parse_response` as consumed by the
coordinator's payment callback. -/
structure GatewayResponse where
  success : Bool
  rawResponse : List Char

/-- `VendingMachine._process_payment`: validates the selection against the
catalogue, allocates the 6-digit transaction id
`(int(time) % 900000) + 100000`, and starts the purchase task.  Every path
inside the `try` block ends with the `finally` ACK. -/
def processPayment (st : MachineState) (now : Nat) (sel : Nat) :
    MachineState × List Output :=
  if st.hasTransactionTask then
    if st.serialConnected then sendCommand st ackCode none else (st, [])
  else if !st.esocketConnected then
    cancelSelection st
  else
    let inner : MachineState × List Output :=
      match st.catalogue (sel : Int) with
      | none => cancelSelection st
      | some entry =>
        let amount := entry.price.getD 0
        if amount ≤ 0 then cancelSelection st
        else
          let transactionId := now % 900000 + 100000
          let st := { st with
            currentTransactionId := some transactionId
            hasTransactionTask := true }
          (st, [Output.gateway (GatewayRequest.purchase transactionId amount)])
    let fin :=
      if inner.1.serialConnected then sendCommand inner.1 ackCode none
      else (inner.1, [])
    (fin.1, inner.2 ++ fin.2)

/-- The `payment_callback` attached to the purchase task in
`_process_payment`.  On APPROVE it queues `DIRECT_DRIVE`, decrements the
persisted inventory (saturating at 0) and queues `SET_INVENTORY`;
otherwise it cancels the selection.  The `asyncio.create_task` wrappers
delay the queue/cancel work until after the callback's `finally` clears
`current_selection` and the task slot, which does not change the net
state; effects are recorded here in source order. -/
def processPaymentResult (st : MachineState) (resp : GatewayResponse) :
    MachineState × List Output :=
  if resp.success && substringIn approveCode resp.rawResponse then
    match st.currentSelection with
    | some sel =>
      match st.catalogue (sel : Int), st.serialConnected with
      | some entry, true =>
        let st := (queueCommand st "DIRECT_DRIVE"
          (some ([0x01, 0x01] ++ bigEndianBytes sel 2))).1
        let currentInventory := entry.inventory.getD 0
        let newInventory := max 0 (currentInventory - 1)
        let st := { st with
          catalogue := updateEntry st.catalogue (sel : Int)
            (fun e => { e with inventory := some newInventory }) }
        let st :=
          if st.serialConnected then
            (queueCommand st "SET_INVENTORY"
              (some (bigEndianBytes sel 2 ++ [newInventory.toNat]))).1
          else st
        ({ st with currentSelection := none, hasTransactionTask := false }, [])
      | _, _ =>
        let st := { st with currentSelection := none, hasTransactionTask := false }
        cancelSelection st
    | none =>
      let st := { st with currentSelection := none, hasTransactionTask := false }
      cancelSelection st
  else
    let st := { st with currentSelection := none, hasTransactionTask := false }
    cancelSelection st

/-- `VendingMachine._handle_selection_cancel`.  A payload shorter than 2
bytes is dropped without an ACK.  A packet whose first payload byte equals
`_last_cancel_packet` is treated as a duplicate: only an ACK is sent.
Otherwise the last-cancel marker is updated, `command_queue` is replaced
by a fresh queue, and selection `0` cancels the running transaction task
(whose callback `finally` clears the selection and task fields) while a
non-zero selection starts `_process_payment` when no task is running. -/
def handleSelectionCancel (st : MachineState) (now : Nat)
    (payload : List Nat) : MachineState × List Output :=
  if payload.length < 2 then (st, [])
  else
    let packetNum := payload.getD 0 0
    let selection := bytesToNat ((payload.drop 1).take 2)
    if st.lastCancelPacket = some packetNum then
      sendCommand st ackCode none
    else
      let st := { st with lastCancelPacket := some packetNum }
      let st := { st with commandQueue := [] }
      if selection = 0 then
        let st := { st with hasTransactionTask := false, currentSelection := none }
        sendCommand st ackCode none
      else
        if !st.hasTransactionTask then
          let st := { st with currentSelection := some selection }
          let r1 := processPayment st now selection
          let r2 := sendCommand r1.1 ackCode none
          (r2.1, r1.2 ++ r2.2)
        else
          sendCommand st ackCode none

/-- Methods defined on `ESocketClient` in `src/services/esocket.py` (the
class the coordinator instantiates). -/
def esocketClientMethods : List String :=
  ["_load_terminal_id_from_config", "_restart_esocket_services",
   "_create_message_header", "connect", "_send_message", "disconnect",
   "initialize_terminal", "close_terminal", "send_purchase_transaction",
   "send_deposit_transaction", "_parse_response", "_is_connection_healthy"]

/-- The reversal dict built in `_handle_dispensing_status`:
`Type` is the string `"REVERSAL"`, `TransactionId` is
`str(int(time) % 1000000).zfill(6)` and `OriginalTransactionId` is the
stored `_current_transaction_id`. -/
def reversalMessageFor (st : MachineState) (now : Nat) (statusCode : Nat) :
    ReversalMessage :=
  { terminalId := st.esocketTerminalId
    transactionId := now % 1000000
    txnType := "REVERSAL"
    originalTransactionId := st.currentTransactionId
    reasonStatus := statusCode }

/-- `VendingMachine._handle_dispensing_status`.  Success codes only clear
the current selection.  Error codes build the reversal dict and attempt
`esocket_client.send_reversal_transaction(...)`; since `ESocketClient`
defines no such method the call raises `AttributeError`, which the
`except` swallows, so no gateway request is emitted; the `finally` then
resets the state via `cancel_selection`. -/
def handleDispensingStatus (st : MachineState) (now : Nat)
    (payload : List Nat) : MachineState × List Output :=
  if payload.length < 2 then (st, [])
  else
    let statusCode := payload.getD 1 0
    let _selection :=
      if 3 ≤ payload.length then
        let fromPayload := bytesToNat ((payload.drop 2).take 2)
        if fromPayload ≠ 0 then some fromPayload else st.currentSelection
      else st.currentSelection
    if statusCode = 0x00 ∨ statusCode = 0x02 then
      let st := { st with currentSelection := none }
      sendCommand st ackCode none
    else if statusCode = 0x03 ∨ statusCode = 0x04 ∨ statusCode = 0x06 ∨
        statusCode = 0x07 ∨ statusCode = 0xFF then
      let msg := reversalMessageFor st now statusCode
      let gatewayOuts :=
        if esocketClientMethods.contains "send_reversal_transaction" then
          [Output.gateway (GatewayRequest.reversal msg)]
        else []
      let st := { st with currentSelection := none }
      let r1 := cancelSelection st
      let r2 := sendCommand r1.1 ackCode none
      (r2.1, gatewayOuts ++ r1.2 ++ r2.2)
    else
      sendCommand st ackCode none

/-! ## Payment client response parsing (`src/services/esocket.py`) -/

/-- Result dict of `ESocketClient._parse_response`. -/
structure ParseResult where
  rawResponse : List Char
  success : Bool
  error : Option String
deriving DecidableEq, Repr

/-- `ESocketClient._parse_response`: `success` is hard-coded `True`
whenever `ET.fromstring(response)` does not raise (the source comment
reads "Simplified - implement proper status checking"); on a parse error
it is `False`.  The outcome of `ET.fromstring` is the `parseOk` argument;
nothing else about the response influences the result. -/
def parseResponse (parseOk : Bool) (response : List Char) : ParseResult :=
  if parseOk then
    { rawResponse := response, success := true, error := none }
  else
    { rawResponse := response, success := false, error := some "ParseError" }

/-! ## Tray provisioning (`src/utils/inventory.py`) and
`VendingMachine.set_product_price` -/

/-- `create_tray_data(tray_number, price, inventory=5)`: entries for
`selection = tray_number * 10 + i`, `i = 0..9`, each carrying
`tray = tray_number` and `capacity = 5`. -/
def createTrayData (trayNumber price : Int) (inventory : Int) :
    Except String (List CatEntry) :=
  if !(0 ≤ trayNumber ∧ trayNumber ≤ 9) then
    Except.error "ValueError: Tray number must be between 0 and 9"
  else
    Except.ok ((List.range 10).map (fun i =>
      { selection := some (trayNumber * 10 + i)
        tray := some trayNumber
        price := some price
        inventory := some inventory
        capacity := some 5 }))

/-- `VendingMachine.set_product_price(tray_number, price)`: validates
`price ∈ [0, 9999]` and `tray ∈ [0, 9]`, queues one `SET_PRICE` for the
tray's first selection `tray*10 + 1`, then upserts every entry produced by
`create_tray_data` keyed on its `selection` field. -/
def setProductPrice (st : MachineState) (trayNumber : Int)
    (price : Option Int) : MachineState × Bool :=
  match price with
  | none => (st, false)
  | some p =>
    if !(0 ≤ p ∧ p ≤ 9999) then (st, false)
    else if !(0 ≤ trayNumber ∧ trayNumber ≤ 9) then (st, false)
    else
      let selection := trayNumber * 10 + 1
      let data := bigEndianBytes selection.toNat 2 ++ bigEndianBytes p.toNat 4
      let q := queueCommand st "SET_PRICE" (some data)
      if !q.2 then (q.1, false)
      else
        match createTrayData trayNumber p 5 with
        | Except.error _ => (q.1, false)
        | Except.ok entries =>
          let cat := entries.foldl
            (fun c e => upsertEntry c (e.selection.getD 0) e) q.1.catalogue
          ({ q.1 with catalogue := cat }, true)

/-! ## MQTT router (`src/services/broker.py`) -/

/-- JSON payload of a `set_price` message: the fields
`_handle_price_update` reads. -/
structure PricePayload where
  tray : Option Int
  price : Option Int
  selection : Option Int
  all : Bool

/-- The message published on `price_update_status` (only the fields the
claims inspect: the `success` flag and the `error` key of the exception
response; the echo fields and per-cell `results` are omitted). -/
structure MqttResponse where
  success : Bool
  error : Option String
deriving DecidableEq, Repr

/-- `selection.to_bytes(2,"big") + price.to_bytes(4,"big")` as evaluated
in `_handle_price_update` (left to right, so an `OverflowError` from the
price leaves the preceding upsert in place). -/
def encodePriceData (sel : Int) (price : Option Int) :
    Except String (List Nat) := do
  let sb ← intToBytes sel 2
  match price with
  | none => Except.error "AttributeError"
  | some p =>
    let pb ← intToBytes p 4
    pure (sb ++ pb)

/-- `MQTTBroker._handle_price_update` over the shared `Prices` table and
the vending machine's command queue.  Returns the new machine state and
the message published on `price_update_status` (`none` when the handler
returns early without publishing).  The whole body sits in a
`try/except`: an encoding exception publishes
`{"success": False, "error": ...}` — after the upserts of the taken
branch have already been applied.  In the `all` branch the `success`
variable is never assigned, so the published flag stays `False`. -/
def handlePriceUpdate (connected : Bool) (vm : MachineState)
    (payload : PricePayload) : MachineState × Option MqttResponse :=
  if !connected then (vm, none)
  else if payload.price = none ∧ payload.all = false then (vm, none)
  else
    match payload.selection with
    | some sel =>
      if !(1 ≤ sel ∧ sel ≤ 100) then (vm, none)
      else
        let upd : CatEntry :=
          { CatEntry.empty with selection := some sel, price := payload.price }
        let vm := { vm with catalogue := upsertEntry vm.catalogue sel upd }
        match encodePriceData sel payload.price with
        | Except.ok d =>
          let q := queueCommand vm "SET_PRICE" (some d)
          (q.1, if connected then some { success := q.2, error := none } else none)
        | Except.error e =>
          (vm, if connected then some { success := false, error := some e } else none)
    | none =>
      match payload.tray with
      | some t =>
        let specialSel := 1000 + t
        let startSel := t * 10 + 1
        let upd : Int → CatEntry := fun s =>
          { CatEntry.empty with selection := some s, price := payload.price }
        let cat := (List.range 10).foldl
          (fun c i => upsertEntry c (startSel + i) (upd (startSel + i)))
          vm.catalogue
        let vm := { vm with catalogue := cat }
        match encodePriceData specialSel payload.price with
        | Except.ok d =>
          let q := queueCommand vm "SET_PRICE" (some d)
          (q.1, if connected then some { success := q.2, error := none } else none)
        | Except.error e =>
          (vm, if connected then some { success := false, error := some e } else none)
      | none =>
        if payload.all then
          let upd : Int → CatEntry := fun s =>
            { CatEntry.empty with selection := some s, price := payload.price }
          let cat := (List.range 100).foldl
            (fun c i => upsertEntry c ((i : Int) + 1) (upd ((i : Int) + 1)))
            vm.catalogue
          let vm := { vm with catalogue := cat }
          match encodePriceData 0 payload.price with
          | Except.ok d =>
            let q := queueCommand vm "SET_PRICE" (some d)
            (q.1, if connected then some { success := false, error := none } else none)
          | Except.error e =>
            (vm, if connected then some { success := false, error := some e } else none)
        else (vm, none)

/-! ## Concrete states used by the claim theorems -/

/-- The empty `Prices` table. -/
def emptyCatalogue : Catalogue := fun _ => none

/-- A connected machine in its initial state. -/
def baseState : MachineState :=
  { packetNumber := 1
    currentSelection := none
    commandQueue := []
    lastCancelPacket := none
    currentTransactionId := none
    hasTransactionTask := false
    serialConnected := true
    esocketConnected := true
    esocketTerminalId := some "T1"
    catalogue := emptyCatalogue }

/-! ## Helper lemmas -/

/-- Both branches of `create_packet` produce the same byte layout. -/
theorem createPacket_eq (command seq : Nat) (data : List Nat) :
    createPacket command seq data =
      (0xFA :: 0xFB :: command :: (data.length + 1) :: seq :: data) ++
        [calculateXor
          (0xFA :: 0xFB :: command :: (data.length + 1) :: seq :: data)] := by
  cases data <;> simp [createPacket]

theorem length_createPacket (command seq : Nat) (data : List Nat) :
    (createPacket command seq data).length = data.length + 6 := by
  rw [createPacket_eq]
  simp

theorem extractPacket_createPacket (command seq : Nat) (data : List Nat) :
    extractPacket (createPacket command seq data) =
      (some (createPacket command seq data), []) := by
  have hlen := length_createPacket command seq data
  rw [createPacket_eq] at hlen ⊢
  generalize hx :
    calculateXor (0xFA :: 0xFB :: command :: (data.length + 1) :: seq :: data)
      = x at hlen ⊢
  unfold extractPacket
  rw [show
      findStx ((0xFA :: 0xFB :: command :: (data.length + 1) :: seq :: data)
        ++ [x]) = some 0 from by simp [findStx]]
  simp only [List.drop_zero]
  rw [if_neg (by omega)]
  rw [show
      ((0xFA :: 0xFB :: command :: (data.length + 1) :: seq :: data)
        ++ [x]).getD 3 0 = data.length + 1 from by simp]
  rw [if_neg (by omega)]
  rw [show 4 + (data.length + 1) + 1 =
      ((0xFA :: 0xFB :: command :: (data.length + 1) :: seq :: data)
        ++ [x]).length from by omega]
  rw [List.take_length, List.drop_length]
  rw [List.dropLast_concat, List.getLastD_concat, hx]
  simp

theorem packetFields_createPacket (command seq : Nat) (data : List Nat) :
    packetCmd (createPacket command seq data) = command ∧
      packetSeq (createPacket command seq data) = seq ∧
      packetData (createPacket command seq data) = data := by
  rw [createPacket_eq]
  generalize calculateXor
    (0xFA :: 0xFB :: command :: (data.length + 1) :: seq :: data) = x
  have hpay : packetPayload
      (0xFA :: 0xFB :: command :: (data.length + 1) :: seq :: (data ++ [x])) =
        seq :: data := by
    show (seq :: (data ++ [x])).dropLast = seq :: data
    rw [← List.cons_append, List.dropLast_concat]
  exact ⟨by simp [packetCmd], by simp [packetSeq, hpay],
    by simp [packetData, hpay]⟩

theorem sendCommand_catalogue (st : MachineState) (c : Nat)
    (d : Option (List Nat)) : (sendCommand st c d).1.catalogue = st.catalogue := by
  unfold sendCommand
  split_ifs <;> rfl

theorem vmcCode_direct_drive : vmcCode "DIRECT_DRIVE" = some 0x06 := by decide

theorem vmcCode_set_inventory : vmcCode "SET_INVENTORY" = some 0x13 := by
  decide

/-! ## Claim theorems -/

/-- **C1** (claimed): on a checksum failure the decoder drops the first STX
byte of the bad candidate and rescans, so a well-formed frame behind the
corruption is still delivered.  In the code `_process_incoming_data`
`break`s without saving the remainder `_extract_packet` returns on a
checksum failure, so the buffer still starts with the same corrupt
candidate: here a corrupt frame (checksum byte `0x00`, true checksum
`0x50`) followed by a well-formed POLL frame yields no delivered packet
and an unchanged buffer — every later pass is identical, and the good
frame (which `extractPacket` alone accepts) is never delivered. -/
theorem corrupt_frame_blocks_later_frame :
    processIncomingData
        [0xFA, 0xFB, 0x41, 0x01, 0x11, 0x00,
         0xFA, 0xFB, 0x41, 0x01, 0x22, 0x63] =
      ([], [0xFA, 0xFB, 0x41, 0x01, 0x11, 0x00,
            0xFA, 0xFB, 0x41, 0x01, 0x22, 0x63]) ∧
    (extractPacket [0xFA, 0xFB, 0x41, 0x01, 0x11, 0x00,
        0xFA, 0xFB, 0x41, 0x01, 0x22, 0x63]).1 = none ∧
    extractPacket [0xFA, 0xFB, 0x41, 0x01, 0x22, 0x63] =
      (some [0xFA, 0xFB, 0x41, 0x01, 0x22, 0x63], []) := by decide

/-- **C2** (claimed): on a purchase response without APPROVE the
coordinator queues a `SELECT_CANCEL` that is later transmitted on a POLL,
drains the queue, and goes idle.  In the code `cancel_selection` first
queues the `SELECT_CANCEL` and then `reset_machine_state` replaces the
queue with a fresh empty one, discarding it: after a decline the queue is
empty, the transaction is cleared, and the only transmission is the final
ACK (command byte `0x42`), never a `SELECT_CANCEL` (`0x05`). -/
theorem queued_cancel_discarded_on_decline :
    (processPaymentResult
        { baseState with
            packetNumber := 9
            currentSelection := some 7
            currentTransactionId := some 123456
            hasTransactionTask := true }
        { success := true,
          rawResponse := "ActionCode=\"DECLINE\"".data }).1.commandQueue
      = [] ∧
    (processPaymentResult
        { baseState with
            packetNumber := 9
            currentSelection := some 7
            currentTransactionId := some 123456
            hasTransactionTask := true }
        { success := true,
          rawResponse := "ActionCode=\"DECLINE\"".data }).1.currentTransactionId
      = none ∧
    (processPaymentResult
        { baseState with
            packetNumber := 9
            currentSelection := some 7
            currentTransactionId := some 123456
            hasTransactionTask := true }
        { success := true,
          rawResponse := "ActionCode=\"DECLINE\"".data }).2
      = [Output.serial (createPacket 0x42 9 [])] ∧
    packetCmd (createPacket 0x42 9 []) = 0x42 ∧ (0x42 : Nat) ≠ 0x05 := by
  decide

/-- **C3** (claimed): a dispense-error status while a paid transaction is
current makes the coordinator send the gateway a reversal with
`Type="REFUND"` and the original transaction id.  In the code the dict is
built with `Type="REVERSAL"` (not `"REFUND"`), and
`ESocketClient` defines no `send_reversal_transaction` method, so the call
raises `AttributeError` (swallowed by the `except`): no gateway request is
emitted at all. -/
theorem reversal_never_reaches_gateway :
    ((handleDispensingStatus
        { baseState with
            currentSelection := some 7
            currentTransactionId := some 123456
            hasTransactionTask := true }
        123 [0x21, 0x03]).2.filter Output.isGateway) = [] ∧
    reversalMessageFor
        { baseState with
            currentSelection := some 7
            currentTransactionId := some 123456
            hasTransactionTask := true }
        123 0x03
      = { terminalId := some "T1", transactionId := 123,
          txnType := "REVERSAL", originalTransactionId := some 123456,
          reasonStatus := 3 } ∧
    "REVERSAL" ≠ "REFUND" ∧
    esocketClientMethods.contains "send_reversal_transaction" = false := by
  decide

/-- **C4** (counterexample): the claim says the persisted inventory is
decremented when a dispense success status (`0x00`/`0x02`) is received.
At a state holding a paid transaction for selection 7 with inventory 3,
receiving `DISPENSING_STATUS` with status `0x00` leaves the catalogue
entry untouched (inventory still 3, not 2): the success branch of
`_handle_dispensing_status` only clears `current_selection`. -/
theorem dispense_success_leaves_inventory :
    (handleDispensingStatus
        { baseState with
            currentSelection := some 7
            currentTransactionId := some 111111
            catalogue := fun k =>
              if k = 7 then some ⟨some 7, some 0, some 150, some 3, some 5⟩
              else none }
        99 [0x21, 0x00]).1.catalogue 7 =
      some ⟨some 7, some 0, some 150, some 3, some 5⟩ ∧
    some (⟨some 7, some 0, some 150, some 3, some 5⟩ : CatEntry) ≠
      some (⟨some 7, some 0, some 150, some 2, some 5⟩ : CatEntry) := by
  decide

/-- **C4** (amended): the persisted inventory of the purchased selection
is decremented exactly once per sale, by one and saturating at zero, in
the payment callback at the moment the purchase is APPROVEd (right after
the `DIRECT_DRIVE` is queued) — not when the dispense success status
arrives: the success branch of `_handle_dispensing_status` never modifies
the catalogue.  The decremented value `max 0 (inv - 1)` is never
negative. -/
theorem inventory_decrement_at_approval
    (st : MachineState) (resp : GatewayResponse) (sel : Nat)
    (entry : CatEntry) (inv : Int)
    (hsel : st.currentSelection = some sel)
    (hcat : st.catalogue (sel : Int) = some entry)
    (hinv : entry.inventory = some inv)
    (hser : st.serialConnected = true)
    (happ : (resp.success && substringIn approveCode resp.rawResponse) = true) :
    (processPaymentResult st resp).1.catalogue (sel : Int) =
        some { entry with inventory := some (max 0 (inv - 1)) } ∧
      (∀ (st' : MachineState) (now : Nat) (payload : List Nat),
        (payload.getD 1 0 = 0x00 ∨ payload.getD 1 0 = 0x02) →
        (handleDispensingStatus st' now payload).1.catalogue = st'.catalogue) ∧
      (0 : Int) ≤ max 0 (inv - 1) := by
  refine ⟨?_, ?_, le_max_left 0 _⟩
  · simp only [processPaymentResult, happ, if_true, hsel, hcat, hser]
    simp [queueCommand, vmcCode_direct_drive, vmcCode_set_inventory,
      updateEntry, hcat, hinv, hser]
  · intro st' now payload h
    by_cases hl : payload.length < 2
    · simp [handleDispensingStatus, hl]
    · simp only [handleDispensingStatus]
      rw [if_neg hl, if_pos h, sendCommand_catalogue]

/-- Witness for `inventory_decrement_at_approval` at a concrete state:
selection 7, inventory 3, APPROVE response. -/
theorem inventory_decrement_at_approval_witness :
    (processPaymentResult
        { baseState with
            currentSelection := some 7
            currentTransactionId := some 123456
            hasTransactionTask := true
            catalogue := fun k =>
              if k = 7 then some ⟨some 7, some 0, some 150, some 3, some 5⟩
              else none }
        { success := true,
          rawResponse := "ActionCode=\"APPROVE\"".data }).1.catalogue
        ((7 : Nat) : Int) =
        some { (⟨some 7, some 0, some 150, some 3, some 5⟩ : CatEntry) with
          inventory := some (max 0 ((3 : Int) - 1)) } ∧
      (∀ (st' : MachineState) (now : Nat) (payload : List Nat),
        (payload.getD 1 0 = 0x00 ∨ payload.getD 1 0 = 0x02) →
        (handleDispensingStatus st' now payload).1.catalogue = st'.catalogue) ∧
      (0 : Int) ≤ max 0 ((3 : Int) - 1) :=
  inventory_decrement_at_approval
    { baseState with
        currentSelection := some 7
        currentTransactionId := some 123456
        hasTransactionTask := true
        catalogue := fun k =>
          if k = 7 then some ⟨some 7, some 0, some 150, some 3, some 5⟩
          else none }
    { success := true, rawResponse := "ActionCode=\"APPROVE\"".data }
    7 ⟨some 7, some 0, some 150, some 3, some 5⟩ 3
    (by decide) (by decide) (by decide) (by decide) (by decide)

/-- **C5**: framer round-trip.  For every `cmd ∈ [0,255]`, `seq ∈ [1,255]`
and data of length ≤ 250, extracting from the exact encoded buffer yields
the whole packet with nothing left over, `_handle_packet` recovers the
command, sequence byte and data unchanged, and the checksum byte equals
the XOR of all preceding bytes. -/
theorem framer_roundtrip (command seq : Nat) (data : List Nat)
    (_hcmd : command ≤ 255) (_hseq1 : 1 ≤ seq) (_hseq2 : seq ≤ 255)
    (_hlen : data.length ≤ 250) (_hbytes : ∀ b ∈ data, b ≤ 255) :
    extractPacket (createPacket command seq data) =
        (some (createPacket command seq data), []) ∧
      packetCmd (createPacket command seq data) = command ∧
      packetSeq (createPacket command seq data) = seq ∧
      packetData (createPacket command seq data) = data ∧
      calculateXor (createPacket command seq data).dropLast =
        (createPacket command seq data).getLastD 0 := by
  obtain ⟨h1, h2, h3⟩ := packetFields_createPacket command seq data
  refine ⟨extractPacket_createPacket command seq data, h1, h2, h3, ?_⟩
  rw [createPacket_eq, List.dropLast_concat, List.getLastD_concat]

/-- Witness for `framer_roundtrip`: `cmd = 0x05`, `seq = 0x11`,
`data = [0x00, 0x07]` (the spec's scenario-1 keypad packet). -/
theorem framer_roundtrip_witness :
    extractPacket (createPacket 0x05 0x11 [0x00, 0x07]) =
        (some (createPacket 0x05 0x11 [0x00, 0x07]), []) ∧
      packetCmd (createPacket 0x05 0x11 [0x00, 0x07]) = 0x05 ∧
      packetSeq (createPacket 0x05 0x11 [0x00, 0x07]) = 0x11 ∧
      packetData (createPacket 0x05 0x11 [0x00, 0x07]) = [0x00, 0x07] ∧
      calculateXor (createPacket 0x05 0x11 [0x00, 0x07]).dropLast =
        (createPacket 0x05 0x11 [0x00, 0x07]).getLastD 0 :=
  framer_roundtrip 0x05 0x11 [0x00, 0x07] (by decide) (by decide)
    (by decide) (by decide) (by decide)

/-- **C6** (claimed): the purchase result's `success` is true iff
`ActionCode="APPROVE"` occurs in the raw response.  In
`ESocketClient._parse_response` `success` is hard-coded `True` whenever
the XML parses: a well-formed DECLINE response yields `success = true`
although APPROVE does not occur in it, and an ill-formed response
containing the APPROVE marker yields `success = false`. -/
theorem parse_success_ignores_approve :
    (parseResponse true "<Esp:Response ActionCode=\"DECLINE\"/>".data).success
        = true ∧
      substringIn approveCode "<Esp:Response ActionCode=\"DECLINE\"/>".data
        = false ∧
      (parseResponse false "ActionCode=\"APPROVE\"".data).success = false ∧
      substringIn approveCode "ActionCode=\"APPROVE\"".data = true := by
  decide

/-- **C7** (claimed): an out-of-range `set_price` yields a
`success=false` response and leaves the catalogue unchanged.  The handler
performs the `Prices.upsert` *before* `price.to_bytes(4,"big")` raises
`OverflowError`, so for `price = -1` on selection 5 the error response is
published but the catalogue now holds the invalid price. -/
theorem invalid_price_persisted_before_error :
    (handlePriceUpdate true baseState
        { tray := none, price := some (-1), selection := some 5,
          all := false }).1.catalogue 5
      = some ⟨some 5, none, some (-1), none, none⟩ ∧
    baseState.catalogue 5 = none ∧
    (handlePriceUpdate true baseState
        { tray := none, price := some (-1), selection := some 5,
          all := false }).2
      = some ⟨false, some "OverflowError"⟩ ∧
    ¬(0 ≤ (-1 : Int)) := by decide

/-- **C8** (claimed): every entry written by a tray-wide operation has
`selection ∈ [1,100]` and `tray = (selection-1)/10`, the tray-t write
touching `10·t+1 .. 10·t+10`.  `create_tray_data` (used by
`set_product_price`) numbers tray `t` as `10·t .. 10·t+9`: for tray 1 it
writes an entry with `selection = 10` and `tray = 1` although
`(10-1)/10 = 0`, and for tray 0 it writes `selection = 0`, outside
`[1,100]`. -/
theorem tray_data_off_by_one :
    ((createTrayData 1 200 5).toOption.map (List.map CatEntry.selection)) =
        some [some 10, some 11, some 12, some 13, some 14, some 15,
          some 16, some 17, some 18, some 19] ∧
      (setProductPrice baseState 1 (some 200)).1.catalogue 10 =
        some ⟨some 10, some 1, some 200, some 5, some 5⟩ ∧
      ((10 : Int) - 1) / 10 = 0 ∧ (0 : Int) ≠ 1 ∧
      (setProductPrice baseState 0 (some 200)).1.catalogue 0 =
        some ⟨some 0, some 0, some 200, some 5, some 5⟩ ∧
      ¬(1 ≤ (0 : Int)) := by decide

/-- **C9** (claimed): one packet per POLL, FIFO, except that a queued
`DIRECT_DRIVE` overtakes earlier non-dispensing commands.  The
"Prioritize dispensing commands" branch of `_handle_poll` performs the
same send as the general branch on the queue head, so with a `SET_PRICE`
queued before a `DIRECT_DRIVE` the first POLL transmits the `SET_PRICE`
and only the second transmits the `DIRECT_DRIVE` — strict FIFO, no
prioritization. -/
theorem poll_fifo_no_direct_drive_priority :
    (handlePoll { baseState with commandQueue :=
        [QEntry.withData 0x12 [0, 5, 0, 0, 0, 200],
         QEntry.withData 0x06 [1, 1, 0, 7]] }).2 =
      [Output.serial (createPacket 0x12 1 [0, 5, 0, 0, 0, 200])] ∧
    (handlePoll (handlePoll { baseState with commandQueue :=
        [QEntry.withData 0x12 [0, 5, 0, 0, 0, 200],
         QEntry.withData 0x06 [1, 1, 0, 7]] }).1).2 =
      [Output.serial (createPacket 0x06 2 [1, 1, 0, 7])] ∧
    packetCmd (createPacket 0x12 1 [0, 5, 0, 0, 0, 200]) = 0x12 ∧
    (0x12 : Nat) ≠ 0x06 := by decide

/-- **C10**: duplicate suppression of `SELECT_CANCEL` is keyed on the seq
byte alone.  Whenever the first payload byte equals the remembered
`_last_cancel_packet`, the handler changes none of the coordinator's
fields other than the ACK's consumption of the sequence counter, and
transmits exactly one ACK — whatever selection value the payload
carries. -/
theorem duplicate_cancel_seq_only (st : MachineState) (now : Nat)
    (payload : List Nat) (hlen : 2 ≤ payload.length)
    (hdup : st.lastCancelPacket = some (payload.getD 0 0))
    (hser : st.serialConnected = true) :
    (handleSelectionCancel st now payload).1.commandQueue = st.commandQueue ∧
      (handleSelectionCancel st now payload).1.currentSelection
        = st.currentSelection ∧
      (handleSelectionCancel st now payload).1.lastCancelPacket
        = st.lastCancelPacket ∧
      (handleSelectionCancel st now payload).1.currentTransactionId
        = st.currentTransactionId ∧
      (handleSelectionCancel st now payload).1.hasTransactionTask
        = st.hasTransactionTask ∧
      (handleSelectionCancel st now payload).1.catalogue = st.catalogue ∧
      (handleSelectionCancel st now payload).2
        = [Output.serial (createPacket ackCode st.packetNumber [])] := by
  have hlt : ¬(payload.length < 2) := by omega
  simp [handleSelectionCancel, hlt, hdup, sendCommand, hser]

/-- Witness for `duplicate_cancel_seq_only`: the previous cancel had
seq `0x11` and selection 9; the duplicate carries seq `0x11` with a
*different* selection 7 and is still dropped with a single ACK. -/
theorem duplicate_cancel_seq_only_witness :
    (handleSelectionCancel
          { baseState with
              packetNumber := 4
              currentSelection := some 9
              commandQueue := [QEntry.bare 0x31]
              lastCancelPacket := some 0x11
              currentTransactionId := some 555555
              hasTransactionTask := true }
          77 [0x11, 0x00, 0x07]).1.commandQueue = [QEntry.bare 0x31] ∧
      (handleSelectionCancel
          { baseState with
              packetNumber := 4
              currentSelection := some 9
              commandQueue := [QEntry.bare 0x31]
              lastCancelPacket := some 0x11
              currentTransactionId := some 555555
              hasTransactionTask := true }
          77 [0x11, 0x00, 0x07]).2
        = [Output.serial (createPacket ackCode 4 [])] := by
  have h := duplicate_cancel_seq_only
    { baseState with
        packetNumber := 4
        currentSelection := some 9
        commandQueue := [QEntry.bare 0x31]
        lastCancelPacket := some 0x11
        currentTransactionId := some 555555
        hasTransactionTask := true }
    77 [0x11, 0x00, 0x07] (by decide) (by decide) (by decide)
  exact ⟨h.1, h.2.2.2.2.2.2⟩

end Vmc
